import Mathlib

/-!
A shallow embedding of the dataset-preparation pipeline of the ASD repository:
the Pascal-VOC-to-YOLO label converter (scripts/convert_format.py) and the
train/val/test dataset partitioner (scripts/train_test_slpit.py).

Python floats are modelled as exact rationals; Python exceptions are modelled
with an explicit error monad (Except).  File contents are modelled as lists of
lines (line strings carry no trailing newline).
-/

namespace ASD

/-! ## Python string primitives -/

/-- Characters removed by Python's str.strip(). -/
def pyIsSpace (c : Char) : Bool :=
  c = ' ' || c = '\t' || c = '\n' || c = '\r' || c = Char.ofNat 11 || c = Char.ofNat 12

/-- Python str.strip(): drop leading and trailing whitespace. -/
def pyStrip (s : String) : String :=
  String.mk (((s.data.dropWhile pyIsSpace).reverse.dropWhile pyIsSpace).reverse)

/-- Helper for Python str.split(" "): splits on every single space character,
keeping empty fields; splitting the empty string yields one empty field. -/
def splitSpaceAux : List Char → List Char → List String
  | [], acc => [String.mk acc.reverse]
  | c :: cs, acc =>
    if c = ' ' then String.mk acc.reverse :: splitSpaceAux cs []
    else splitSpaceAux cs (c :: acc)

/-- Python str.split(" "). -/
def pySplitSpace (s : String) : List String :=
  splitSpaceAux s.data []

/-- Python item.replace(".", "", 1): remove the first dot, if any. -/
def removeFirstDot : List Char → List Char
  | [] => []
  | c :: cs => if c = '.' then cs else c :: removeFirstDot cs

/-- Python item.replace(".", "", 1).isdigit(): true iff after removing the
first dot the token is nonempty and all characters are digits. -/
def isNumericToken (cs : List Char) : Bool :=
  !(removeFirstDot cs).isEmpty && (removeFirstDot cs).all Char.isDigit

/-- Read a digit string as a natural number. -/
def digitsToNat (cs : List Char) : ℕ :=
  cs.foldl (fun n c => 10 * n + (c.toNat - 48)) 0

/-- Python float(item) for tokens accepted by isNumericToken (digits with at
most one dot), modelled exactly as a rational. -/
def parseDecimal (cs : List Char) : ℚ :=
  let ip := cs.takeWhile (fun c => c ≠ '.')
  let fp := (cs.dropWhile (fun c => c ≠ '.')).drop 1
  (digitsToNat ip : ℚ) + (digitsToNat fp : ℚ) / (10 : ℚ) ^ fp.length

/-- Python str.lower() (ASCII). -/
def pyLower (s : String) : String :=
  String.mk (s.data.map Char.toLower)

/-- Python filename[:-4]: drop the last four characters. -/
def pyDropLast4 (s : String) : String :=
  String.mk (s.data.take (s.data.length - 4))

/-! ## Converter data model -/

/-- A parsed label token: Python keeps numeric-looking tokens as floats and
everything else as the original string. -/
inductive Token where
  | num (q : ℚ)
  | str (s : String)
deriving DecidableEq

/-- Python exceptions that can arise in the converter. -/
inductive PyErr where
  | typeError
  | valueError
  | attributeError
  | indexError
  | zeroDivisionError
deriving DecidableEq

/-- Log events emitted by the converter (warnings and info records). -/
inductive LogEvent where
  | imageNotFound
  | alreadyNormalized
  | unknownClass (s : String)
  | converted
deriving DecidableEq

instance {ε α : Type} [DecidableEq ε] [DecidableEq α] : DecidableEq (Except ε α) := fun a b =>
  match a, b with
  | .ok x, .ok y =>
    if h : x = y then .isTrue (by rw [h]) else .isFalse (by intro hc; cases hc; exact h rfl)
  | .error x, .error y =>
    if h : x = y then .isTrue (by rw [h]) else .isFalse (by intro hc; cases hc; exact h rfl)
  | .ok _, .error _ => .isFalse (by intro hc; cases hc)
  | .error _, .ok _ => .isFalse (by intro hc; cases hc)

/-- Coerce one whitespace-separated token the way the converter's list
comprehension does: float(item) if item.replace(".", "", 1).isdigit() else item. -/
def coerceToken (s : String) : Token :=
  if isNumericToken s.data then .num (parseDecimal s.data) else .str s

/-- Tokens of one label line: label.strip().split(" ") followed by the
numeric coercion. -/
def lineTokens (line : String) : List Token :=
  (pySplitSpace (pyStrip line)).map coerceToken

/-- is_normalized(bound_box_dim): 0.0 <= dim <= 1.0.  Comparing a string
against a float raises TypeError in Python 3. -/
def is_normalized : Token → Except PyErr Bool
  | .num q => .ok (decide (0 ≤ q ∧ q ≤ 1))
  | .str _ => .error .typeError

/-- Python all(...) over a generator: short-circuits on the first False and
propagates the first exception raised by the predicate. -/
def pyAll (f : Token → Except PyErr Bool) : List Token → Except PyErr Bool
  | [] => .ok true
  | t :: ts =>
    match f t with
    | .error e => .error e
    | .ok true => pyAll f ts
    | .ok false => .ok false

/-- The fixed class_labels mapping of convert_bbox_to_yolo. -/
def class_labels : List (String × ℕ) :=
  [("buffalo", 0), ("elephant", 1), ("rhino", 2), ("zebra", 3), ("cheetah", 4),
   ("fox", 5), ("jaguar", 6), ("tiger", 7), ("lion", 8), ("panda", 9)]

/-- Python class_labels.get(key, -1), with None standing for the -1 sentinel. -/
def lookupClass (s : String) : Option ℕ :=
  (class_labels.find? (fun p => p.1 = s)).map (fun p => p.2)

/-! ## 6-decimal formatting, modelling the Python f-string fixed-point format with six digits on our exact
rationals (round half to even, then print with exactly six fractional digits). -/

/-- Round num/den (den nonzero) to the nearest integer, ties to even. -/
def rhe (num den : ℕ) : ℕ :=
  let q := num / den
  let r := num % den
  if 2 * r < den then q
  else if 2 * r > den then q + 1
  else if q % 2 = 0 then q else q + 1

/-- Format a nonnegative rational with six decimal digits. -/
def fmt6nn (x : ℚ) : String :=
  let n := rhe (x.num.toNat * 1000000) x.den
  Nat.repr (n / 1000000) ++ "." ++ String.mk ((Nat.repr (n % 1000000 + 1000000)).data.drop 1)

/-- Format a rational with six decimal digits, Python-style sign handling. -/
def fmt6 (x : ℚ) : String :=
  if x < 0 then ("-") ++ fmt6nn (-x) else fmt6nn x

/-! ## Python arithmetic on tokens -/

/-- Python + on our token values: float addition, string concatenation,
TypeError on a mix. -/
def pyAdd : Token → Token → Except PyErr Token
  | .num a, .num b => .ok (.num (a + b))
  | .str a, .str b => .ok (.str (a ++ b))
  | _, _ => .error .typeError

/-- Python - on our token values: only float subtraction is defined. -/
def pySub : Token → Token → Except PyErr Token
  | .num a, .num b => .ok (.num (a - b))
  | _, _ => .error .typeError

/-- Python division of a token by a float: TypeError for strings,
ZeroDivisionError for a zero divisor. -/
def pyDivC (t : Token) (d : ℚ) : Except PyErr Token :=
  match t with
  | .num a => if d = 0 then .error .zeroDivisionError else .ok (.num (a / d))
  | .str _ => .error .typeError

/-- Python fixed-point formatting with six decimals applied to a token:
formats floats, raises ValueError for strings. -/
def fmtTok : Token → Except PyErr String
  | .num q => .ok (fmt6 q)
  | .str _ => .error .valueError

/-! ## convert_bbox_to_yolo -/

/-- convert_bbox_to_yolo(label, img_width, img_height): looks up the class
name (lower-cased) in the fixed vocabulary, returning an empty string with a
warning for unknown classes; otherwise unpacks label[1:5] as the corner
coordinates, computes center/size, normalizes by the image dimensions and
formats the YOLO line with six decimal digits per field. -/
def convert_bbox_to_yolo (label : List Token) (img_width img_height : ℕ) :
    Except PyErr (String × List LogEvent) :=
  match label with
  | [] => .error .indexError
  | .num _ :: _ => .error .attributeError
  | .str s0 :: rest =>
    match lookupClass (pyLower s0) with
    | none => .ok ("", [.unknownClass s0])
    | some cid =>
      match rest.take 4 with
      | [x_min, y_min, x_max, y_max] => do
        let center_x ← pyDivC (← pyAdd x_min x_max) 2
        let center_y ← pyDivC (← pyAdd y_min y_max) 2
        let width ← pySub x_max x_min
        let height ← pySub y_max y_min
        let norm_center_x ← pyDivC center_x (img_width : ℚ)
        let norm_center_y ← pyDivC center_y (img_height : ℚ)
        let norm_width ← pyDivC width (img_width : ℚ)
        let norm_height ← pyDivC height (img_height : ℚ)
        let f1 ← fmtTok norm_center_x
        let f2 ← fmtTok norm_center_y
        let f3 ← fmtTok norm_width
        let f4 ← fmtTok norm_height
        .ok (Nat.repr cid ++ " " ++ f1 ++ " " ++ f2 ++ " " ++ f3 ++ " " ++ f4, [])
      | _ => .error .valueError

/-! ## pascal_to_yolo -/

/-- The per-line loop of pascal_to_yolo.  Returns (none, logs) when the loop
hits a record whose tail values all test normalized (the function returns
early, leaving the file untouched), (some out, logs) when every line was
converted, and an error when a Python exception escapes. -/
def convLoop (w h : ℕ) : List String → Except PyErr (Option (List String) × List LogEvent)
  | [] => .ok (some [], [])
  | line :: rest =>
    match pyAll is_normalized (lineTokens line).tail with
    | .error e => .error e
    | .ok true => .ok (none, [.alreadyNormalized])
    | .ok false =>
      match convert_bbox_to_yolo (lineTokens line) w h with
      | .error e => .error e
      | .ok (s, lgs) =>
        match convLoop w h rest with
        | .error e => .error e
        | .ok (ro, lgs2) => .ok (ro.map (fun out => s :: out), lgs ++ lgs2)

/-- pascal_to_yolo, modelled on its observable file effect.  The first
argument is the paired image's pixel size, none when the image is missing or
unreadable (the try/except around Image.open).  The second argument is the
label file's lines.  The result's first component is some rewritten lines
when the file is overwritten, none when it is left untouched. -/
def pascal_to_yolo (imgSize : Option (ℕ × ℕ)) (lines : List String) :
    Except PyErr (Option (List String) × List LogEvent) :=
  match imgSize with
  | none => .ok (none, [.imageNotFound])
  | some (w, h) =>
    match convLoop w h lines with
    | .error e => .error e
    | .ok (none, lgs) => .ok (none, lgs)
    | .ok (some out, lgs) => .ok (some out, lgs ++ [.converted])

/-- The file content after running pascal_to_yolo: the rewritten lines when a
rewrite happened, the original lines otherwise (early return or exception
before the write). -/
def fileAfter (lines : List String) : Except PyErr (Option (List String) × List LogEvent) → List String
  | .ok (some out, _) => out
  | .ok (none, _) => lines
  | .error _ => lines

/-- Whether a converter run returned normally (no escaping exception). -/
def exOk {α : Type} : Except PyErr α → Bool
  | .ok _ => true
  | .error _ => false

/-- A token that is a float lying in [0, 1]. -/
def tokNormalized : Token → Bool
  | .num q => decide (0 ≤ q ∧ q ≤ 1)
  | .str _ => false

/-- The normalization test of one record, as the loop body evaluates it. -/
def lineNorm (line : String) : Except PyErr Bool :=
  pyAll is_normalized (lineTokens line).tail

/-- Modelled from the spec: the file-level convention-detection predicate as
the spec words it, namely that every record's positional values lie within
[0, 1].  Used only to compare the spec's file-level reading against the
code's per-record early return. -/
def specAllRecordsNormalized (lines : List String) : Bool :=
  lines.all (fun l => ((lineTokens l).tail).all tokNormalized)

/-! ## Dataset partitioner (train_test_slpit.py)

The Python random module is modelled as explicit generator state threaded
through the calls, seeded by random.seed.  random.shuffle is modelled as a
state-determined permutation of the list (a rotation by a pseudo-random
draw) and random.sample as a state-determined selection of k distinct
elements (a prefix of such a rotation): the claims depend only on the draws
being deterministic in the generator state, on shuffle permuting the list
and on sample returning k distinct members of it, which these models share
with the library routines. -/

/-- State of the random module, as threaded through seed/shuffle/sample. -/
abbrev RState := ℕ

/-- random.seed(n): the state becomes a function of n alone, discarding any
previous generator state. -/
def seedR (n : ℕ) : RState := n

/-- One pseudo-random draw (linear congruential step). -/
def nextR (g : RState) : ℕ × RState :=
  let g2 := (g * 1103515245 + 12345) % 2147483648
  (g2, g2)

/-- random.shuffle, modelled as a state-determined permutation. -/
def shuffleR (g : RState) (l : List String) : List String × RState :=
  let p := nextR g
  (l.rotate p.1, p.2)

/-- random.sample(l, k) for k not exceeding the list length, modelled as a
state-determined selection of k distinct elements of l. -/
def sampleR (g : RState) (l : List String) (k : ℕ) : List String × RState :=
  let p := nextR g
  ((l.rotate p.1).take k, p.2)

/-- The corpus identifier set: base names (last four characters stripped) of
the files whose name ends with .txt or .TXT, in directory-listing order. -/
def corpusIds (listing : List String) : List String :=
  (listing.filter (fun f => f.endsWith (".txt") || f.endsWith (".TXT"))).map pyDropLast4

/-- The sampled identifier list a partitioner run slices into the three
subsets: shuffle with seed 42, cap at min(sampleCap, corpus size), then draw
the sample with the same generator state. -/
def sampledIds (listing : List String) (cap : ℕ) : List String :=
  let p1 := shuffleR (seedR 42) (corpusIds listing)
  (sampleR p1.2 p1.1 (min cap p1.1.length)).1

/-- The three identifier subsets produced by one partitioner run. -/
structure SplitSets where
  train : List String
  val : List String
  test : List String
deriving DecidableEq

/-- train_test_split(name, split_ratio, sample): list the label base names,
re-seed the generator with 42, shuffle, cap the sample size at the corpus
size, draw the sample, then slice it by int(sample * ratio) prefix sizes
(int() truncates; the products here are nonnegative, so it is the floor).
The first argument is the random-module state on entry, which the re-seed
makes irrelevant to the result. -/
def train_test_split (_g0 : RState) (listing : List String) (r1 r2 : ℚ) (cap : ℕ) :
    SplitSets × RState :=
  let files0 := corpusIds listing
  let g1 := seedR 42
  let p1 := shuffleR g1 files0
  let sample := min cap p1.1.length
  let p2 := sampleR p1.2 p1.1 sample
  let files := p2.1
  let train_size := ⌊(sample : ℚ) * r1⌋₊
  let val_size := ⌊(sample : ℚ) * r2⌋₊
  (⟨files.take train_size, (files.drop train_size).take val_size,
    files.drop (train_size + val_size)⟩, p2.2)

/-! ## images_labels_split -/

/-- BASE_DIR of the partitioner script. -/
def BASE_DIR : String := "./data"

/-- Destination directory for a subset's images. -/
def imagesDir (mode name : String) : String :=
  BASE_DIR ++ "/images/" ++ mode ++ "/" ++ name

/-- Destination directory for a subset's labels. -/
def labelsDir (mode name : String) : String :=
  BASE_DIR ++ "/labels/" ++ mode ++ "/" ++ name

/-- The files of the raw listing whose name with the last four characters
stripped is a member of the subset. -/
def resolvedData (raw_files subfile : List String) : List String :=
  raw_files.filter (fun file => subfile.contains (pyDropLast4 file))

/-- The resolved files with a .jpg or .jpeg extension, case-insensitive. -/
def resolvedImages (raw_files subfile : List String) : List String :=
  (resolvedData raw_files subfile).filter
    (fun img => (pyLower img).endsWith (".jpg") || (pyLower img).endsWith (".jpeg"))

/-- The resolved files with a .txt extension, case-insensitive. -/
def resolvedLabels (raw_files subfile : List String) : List String :=
  (resolvedData raw_files subfile).filter (fun lbl => (pyLower lbl).endsWith (".txt"))

/-- Warnings the copy step can log. -/
inductive SLog where
  | countMismatch
  | copyImagesError
  | copyLabelsError
deriving DecidableEq

/-- Outcome of one subset's copy step: the performed copies as (file,
destination directory) pairs, in order, plus the logged warnings. -/
structure CopyResult where
  copied : List (String × String)
  warnings : List SLog
deriving DecidableEq

/-- One shutil.copy loop under a surrounding try/except: fails tells which
individual copies raise.  The first failing file aborts the rest of the loop
(the exception leaves the for statement); files copied before it remain. -/
def copyLoop (fails : String → Bool) (destDir : String) :
    List String → List (String × String) × Bool
  | [] => ([], false)
  | f :: fs =>
    if fails f then ([], true)
    else
      let p := copyLoop fails destDir fs
      ((f, destDir) :: p.1, p.2)

/-- images_labels_split(data_path, subfile, name, mode): resolve the subset's
files from the raw listing, filter images and labels, abort with a warning
when the two counts differ, otherwise run the image copy loop and then the
label copy loop, each under its own try/except. -/
def images_labels_split (fails : String → Bool) (raw_files subfile : List String)
    (name mode : String) : CopyResult :=
  let images := resolvedImages raw_files subfile
  let labels := resolvedLabels raw_files subfile
  if images.length ≠ labels.length then
    ⟨[], [.countMismatch]⟩
  else
    let pi := copyLoop fails (imagesDir mode name) images
    let pl := copyLoop fails (labelsDir mode name) labels
    ⟨pi.1 ++ pl.1,
     (if pi.2 then [.copyImagesError] else []) ++ (if pl.2 then [.copyLabelsError] else [])⟩

/-! ## Helper lemmas about the converter loop -/

theorem pyAll_ok_of_all {ts : List Token} (h : ts.all tokNormalized = true) :
    pyAll is_normalized ts = .ok true := by
  induction ts with
  | nil => rfl
  | cons t ts ih =>
    simp only [List.all_cons, Bool.and_eq_true] at h
    cases t with
    | num q =>
      have h1 : decide (0 ≤ q ∧ q ≤ 1) = true := by simpa [tokNormalized] using h.1
      simp [pyAll, is_normalized, h1, ih h.2]
    | str s => simp [tokNormalized] at h

theorem lineTokens_blank {ln : String} (h : pyStrip ln = "") :
    lineTokens ln = [.str ("")] := by
  unfold lineTokens
  rw [h]
  with_unfolding_all decide

theorem convLoop_some_length {w h : ℕ} :
    ∀ {lines out : List String} {lgs : List LogEvent},
      convLoop w h lines = .ok (some out, lgs) → out.length = lines.length := by
  intro lines
  induction lines with
  | nil =>
    intro out lgs hh
    simp only [convLoop, Except.ok.injEq, Prod.mk.injEq, Option.some.injEq] at hh
    obtain ⟨h1, h2⟩ := hh
    subst h1
    rfl
  | cons l rest ih =>
    intro out lgs hh
    unfold convLoop at hh
    cases hA : pyAll is_normalized (lineTokens l).tail with
    | error e => rw [hA] at hh; simp at hh
    | ok b =>
      rw [hA] at hh
      cases b with
      | true => simp at hh
      | false =>
        cases hB : convert_bbox_to_yolo (lineTokens l) w h with
        | error e => rw [hB] at hh; simp at hh
        | ok p =>
          obtain ⟨s, lgs1⟩ := p
          rw [hB] at hh
          cases hC : convLoop w h rest with
          | error e => rw [hC] at hh; simp at hh
          | ok q =>
            obtain ⟨ro2, lgs2⟩ := q
            rw [hC] at hh
            cases ro2 with
            | none => simp at hh
            | some o =>
              simp only [Option.map_some', Except.ok.injEq, Prod.mk.injEq,
                Option.some.injEq] at hh
              obtain ⟨h1, h2⟩ := hh
              subst h1
              simp [ih hC]

theorem convLoop_none_iff {w h : ℕ} :
    ∀ {lines : List String} {ro : Option (List String)} {lgs : List LogEvent},
      convLoop w h lines = .ok (ro, lgs) →
      (ro = none ↔ ∃ l ∈ lines, lineNorm l = .ok true) := by
  intro lines
  induction lines with
  | nil =>
    intro ro lgs hh
    simp only [convLoop, Except.ok.injEq, Prod.mk.injEq] at hh
    obtain ⟨h1, h2⟩ := hh
    subst h1
    simp
  | cons l rest ih =>
    intro ro lgs hh
    unfold convLoop at hh
    cases hA : pyAll is_normalized (lineTokens l).tail with
    | error e => rw [hA] at hh; simp at hh
    | ok b =>
      rw [hA] at hh
      cases b with
      | true =>
        simp only [Except.ok.injEq, Prod.mk.injEq] at hh
        obtain ⟨h1, h2⟩ := hh
        subst h1
        constructor
        · intro _
          exact ⟨l, List.mem_cons_self l rest, hA⟩
        · intro _
          rfl
      | false =>
        cases hB : convert_bbox_to_yolo (lineTokens l) w h with
        | error e => rw [hB] at hh; simp at hh
        | ok p =>
          obtain ⟨s, lgs1⟩ := p
          rw [hB] at hh
          cases hC : convLoop w h rest with
          | error e => rw [hC] at hh; simp at hh
          | ok q =>
            obtain ⟨ro2, lgs2⟩ := q
            rw [hC] at hh
            simp only [Except.ok.injEq, Prod.mk.injEq] at hh
            obtain ⟨h1, h2⟩ := hh
            subst h1
            have hrest := ih hC
            have hheadF : lineNorm l ≠ Except.ok true := by
              simp [lineNorm, hA]
            constructor
            · intro hn
              have h0 : ro2 = none := by
                cases ro2 with
                | none => rfl
                | some o => simp at hn
              obtain ⟨l2, hl2, hl2n⟩ := hrest.mp h0
              exact ⟨l2, List.mem_cons_of_mem _ hl2, hl2n⟩
            · rintro ⟨l2, hl2, hl2n⟩
              rcases List.mem_cons.mp hl2 with heq | hmem
              · subst heq
                exact absurd hl2n hheadF
              · rw [hrest.mpr ⟨l2, hmem, hl2n⟩]
                rfl

theorem convLoop_blank_cons {w h : ℕ} {ln : String} (hln : pyStrip ln = "")
    (post : List String) :
    convLoop w h (ln :: post) = .ok (none, [.alreadyNormalized]) := by
  unfold convLoop
  rw [lineTokens_blank hln]
  rfl

theorem convLoop_blank_no_some {w h : ℕ} {ln : String} (hln : pyStrip ln = "") :
    ∀ (pre post out : List String) (lgs : List LogEvent),
      convLoop w h (pre ++ ln :: post) ≠ .ok (some out, lgs) := by
  intro pre
  induction pre with
  | nil =>
    intro post out lgs hh
    rw [List.nil_append, convLoop_blank_cons hln post] at hh
    simp at hh
  | cons l pre' ih =>
    intro post out lgs hh
    rw [List.cons_append] at hh
    unfold convLoop at hh
    cases hA : pyAll is_normalized (lineTokens l).tail with
    | error e => rw [hA] at hh; simp at hh
    | ok b =>
      rw [hA] at hh
      cases b with
      | true => simp at hh
      | false =>
        cases hB : convert_bbox_to_yolo (lineTokens l) w h with
        | error e => rw [hB] at hh; simp at hh
        | ok p =>
          obtain ⟨s, lgs1⟩ := p
          rw [hB] at hh
          cases hC : convLoop w h (pre' ++ ln :: post) with
          | error e => rw [hC] at hh; simp at hh
          | ok q =>
            obtain ⟨ro2, lgs2⟩ := q
            rw [hC] at hh
            cases ro2 with
            | none => simp at hh
            | some o => exact ih post o lgs2 hC

/-! ## Helper lemmas about the partitioner -/

theorem copyLoop_fst (fails : String → Bool) (destDir : String) :
    ∀ fs : List String,
      (copyLoop fails destDir fs).1 =
        (fs.takeWhile (fun f => !fails f)).map (fun f => (f, destDir)) := by
  intro fs
  induction fs with
  | nil => rfl
  | cons f fs ih =>
    by_cases hf : fails f
    · simp [copyLoop, hf, List.takeWhile_cons]
    · simp [copyLoop, hf, List.takeWhile_cons, ih]

theorem train_test_split_fst (g0 : RState) (listing : List String) (r1 r2 : ℚ) (cap : ℕ) :
    (train_test_split g0 listing r1 r2 cap).1 =
      ⟨(sampledIds listing cap).take ⌊((min cap (corpusIds listing).length : ℕ) : ℚ) * r1⌋₊,
       ((sampledIds listing cap).drop
         ⌊((min cap (corpusIds listing).length : ℕ) : ℚ) * r1⌋₊).take
         ⌊((min cap (corpusIds listing).length : ℕ) : ℚ) * r2⌋₊,
       (sampledIds listing cap).drop
         (⌊((min cap (corpusIds listing).length : ℕ) : ℚ) * r1⌋₊ +
          ⌊((min cap (corpusIds listing).length : ℕ) : ℚ) * r2⌋₊)⟩ := by
  simp only [train_test_split, sampledIds, shuffleR, sampleR, seedR, List.length_rotate]

theorem sampledIds_length (listing : List String) (cap : ℕ) :
    (sampledIds listing cap).length = min cap (corpusIds listing).length := by
  simp only [sampledIds, sampleR, shuffleR, List.length_take, List.length_rotate]
  omega

theorem sampledIds_nodup {listing : List String} (hnd : (corpusIds listing).Nodup)
    (cap : ℕ) : (sampledIds listing cap).Nodup := by
  simp only [sampledIds, sampleR, shuffleR]
  exact List.Nodup.sublist (List.take_sublist _ _)
    (List.nodup_rotate.mpr (List.nodup_rotate.mpr hnd))

/-! ## Claim theorems -/

/-- C1: for every label record whose class token is a known class name
(matched case-insensitively against the fixed ten-entry vocabulary) and a
paired image of pixel size W by H, convert_bbox_to_yolo returns, without any
error or warning, the line made of the class id and the four fields
(x_min+x_max)/2/W, (y_min+y_max)/2/H, (x_max-x_min)/W, (y_max-y_min)/H,
each formatted with six decimal digits. -/
theorem claim1_known_class_conversion (c : String) (cid : ℕ) (x1 y1 x2 y2 : ℚ)
    (W H : ℕ) (hc : lookupClass (pyLower c) = some cid) (hW : 0 < W) (hH : 0 < H) :
    convert_bbox_to_yolo [.str c, .num x1, .num y1, .num x2, .num y2] W H =
      .ok (Nat.repr cid ++ " " ++ fmt6 ((x1 + x2) / 2 / (W : ℚ)) ++ " " ++
        fmt6 ((y1 + y2) / 2 / (H : ℚ)) ++ " " ++ fmt6 ((x2 - x1) / (W : ℚ)) ++ " " ++
        fmt6 ((y2 - y1) / (H : ℚ)), []) := by
  have hW2 : ((W : ℚ) = 0) = False := by
    simp [hW.ne']
  have hH2 : ((H : ℚ) = 0) = False := by
    simp [hH.ne']
  have h2 : ((2 : ℚ) = 0) = False := by norm_num
  simp only [convert_bbox_to_yolo, hc, List.take, pyAdd, pySub, pyDivC, fmtTok,
    bind, Except.bind, h2, hW2, hH2, if_false]

/-- Witness for C1: the spec's buffalo scenario, line buffalo 10 20 110 220
with a 200 by 300 image, converts to exactly 0 0.300000 0.400000 0.500000
0.666667. -/
theorem claim1_witness :
    lookupClass (pyLower ("buffalo")) = some 0 ∧ 0 < 200 ∧ 0 < 300 ∧
    convert_bbox_to_yolo [.str ("buffalo"), .num 10, .num 20, .num 110, .num 220] 200 300 =
      .ok ("0 0.300000 0.400000 0.500000 0.666667", []) := by
  refine ⟨by with_unfolding_all decide, by decide, by decide, ?_⟩
  rw [claim1_known_class_conversion ("buffalo") 0 10 20 110 220 200 300
    (by with_unfolding_all decide) (by decide) (by decide)]
  with_unfolding_all decide

/-- C5 counterexample: the claim that no exception ever escapes the function
is false.  On a label file whose single line is buffalo abc 20 110 220 (a
non-numeric coordinate token), and with a readable 200 by 300 image, the
comparison 0.0 <= dim inside the normalization test raises a TypeError that
escapes pascal_to_yolo; nothing catches it. -/
theorem claim5_counterexample :
    pascal_to_yolo (some (200, 300)) [("buffalo abc 20 110 220")] = .error .typeError := by
  with_unfolding_all decide

/-- C5 amended: only the image-read step is guarded by a try/except.  For
every label content, when the paired image is missing or unreadable the
function logs a warning and returns normally with the file untouched; but
per-line parsing and conversion failures (for example a non-numeric or
negative coordinate token) raise exceptions that escape the function. -/
theorem claim5_amended_image_fail_soft (lines : List String) :
    pascal_to_yolo none lines = .ok (none, [.imageNotFound]) := rfl

/-- C6: conversion is a no-op on already-normalized files.  If every value
token after the class token of every line is a number in the interval from
0 to 1, pascal_to_yolo returns normally and the file content afterwards is
identical to the content before. -/
theorem claim6_normalized_noop (w h : ℕ) (lines : List String)
    (hall : ∀ l ∈ lines, ((lineTokens l).tail).all tokNormalized = true) :
    exOk (pascal_to_yolo (some (w, h)) lines) = true ∧
    fileAfter lines (pascal_to_yolo (some (w, h)) lines) = lines := by
  cases lines with
  | nil => exact ⟨rfl, rfl⟩
  | cons l rest =>
    have h1 : pyAll is_normalized (lineTokens l).tail = .ok true :=
      pyAll_ok_of_all (hall l (List.mem_cons_self l rest))
    constructor
    · simp only [pascal_to_yolo, convLoop, h1]
      rfl
    · simp only [pascal_to_yolo, convLoop, h1]
      rfl

/-- Witness for C6: a file the converter itself produced is left
byte-identical by a second run. -/
theorem claim6_witness :
    (∀ l ∈ [("0 0.300000 0.400000 0.500000 0.666667")],
      ((lineTokens l).tail).all tokNormalized = true) ∧
    exOk (pascal_to_yolo (some (200, 300)) [("0 0.300000 0.400000 0.500000 0.666667")]) = true ∧
    fileAfter [("0 0.300000 0.400000 0.500000 0.666667")]
      (pascal_to_yolo (some (200, 300)) [("0 0.300000 0.400000 0.500000 0.666667")]) =
      [("0 0.300000 0.400000 0.500000 0.666667")] := by
  have hall : ∀ l ∈ [("0 0.300000 0.400000 0.500000 0.666667")],
      ((lineTokens l).tail).all tokNormalized = true := by
    with_unfolding_all decide
  exact ⟨hall, claim6_normalized_noop 200 300 _ hall⟩

/-- C9: unknown class names never raise.  First, whenever the class token of
a record is a string whose lower-cased form is outside the ten-entry
vocabulary, convert_bbox_to_yolo returns normally with the empty output
line and a logged warning, whatever the remaining tokens are.  Second,
whenever pascal_to_yolo rewrites a file, the rewritten file has exactly one
output line per input line, in the original order of processing. -/
theorem claim9_unknown_class :
    (∀ (s : String) (rest : List Token) (w h : ℕ),
      lookupClass (pyLower s) = none →
      convert_bbox_to_yolo (.str s :: rest) w h = .ok ("", [.unknownClass s])) ∧
    (∀ (w h : ℕ) (lines out : List String) (lgs : List LogEvent),
      pascal_to_yolo (some (w, h)) lines = .ok (some out, lgs) →
      out.length = lines.length) := by
  constructor
  · intro s rest w h hs
    simp only [convert_bbox_to_yolo, hs]
  · intro w h lines out lgs hh
    simp only [pascal_to_yolo] at hh
    cases hC : convLoop w h lines with
    | error e => rw [hC] at hh; simp at hh
    | ok q =>
      obtain ⟨ro, lgs2⟩ := q
      rw [hC] at hh
      cases ro with
      | none => simp at hh
      | some o =>
        simp only [Except.ok.injEq, Prod.mk.injEq, Option.some.injEq] at hh
        obtain ⟨h1, h2⟩ := hh
        subst h1
        exact convLoop_some_length hC

/-- Witness for C9: the unknown class dragon produces an empty line plus a
warning at the record level, and a file with a dragon record and a buffalo
record is rewritten to two output lines. -/
theorem claim9_witness :
    lookupClass (pyLower ("dragon")) = none ∧
    convert_bbox_to_yolo [.str ("dragon"), .num 10, .num 20, .num 110, .num 220] 200 300 =
      .ok ("", [.unknownClass ("dragon")]) ∧
    pascal_to_yolo (some (200, 300)) [("dragon 10 20 110 220"), ("buffalo 10 20 110 220")] =
      .ok (some ["", "0 0.300000 0.400000 0.500000 0.666667"],
        [.unknownClass ("dragon"), .converted]) ∧
    (["", "0 0.300000 0.400000 0.500000 0.666667"] : List String).length =
      ([("dragon 10 20 110 220"), ("buffalo 10 20 110 220")] : List String).length := by
  refine ⟨by with_unfolding_all decide, ?_, by with_unfolding_all decide, ?_⟩
  · exact claim9_unknown_class.1 ("dragon") [.num 10, .num 20, .num 110, .num 220] 200 300
      (by with_unfolding_all decide)
  · exact claim9_unknown_class.2 200 300
      [("dragon 10 20 110 220"), ("buffalo 10 20 110 220")]
      ["", "0 0.300000 0.400000 0.500000 0.666667"]
      [.unknownClass ("dragon"), .converted] (by with_unfolding_all decide)

/-- C10: a blank line short-circuits the conversion.  If a line strips to
the empty string, then, first, as soon as the loop reaches it the function
returns with the already-normalized log entry and no rewrite, whatever
lines follow; and second, no file containing such a line is ever rewritten,
whatever the convention of its other records. -/
theorem claim10_blank_line (w h : ℕ) (ln : String) (hln : pyStrip ln = "") :
    (∀ post, convLoop w h (ln :: post) = .ok (none, [.alreadyNormalized])) ∧
    (∀ (pre post out : List String) (lgs : List LogEvent),
      pascal_to_yolo (some (w, h)) (pre ++ ln :: post) ≠ .ok (some out, lgs)) := by
  constructor
  · intro post
    exact convLoop_blank_cons hln post
  · intro pre post out lgs hh
    simp only [pascal_to_yolo] at hh
    cases hC : convLoop w h (pre ++ ln :: post) with
    | error e => rw [hC] at hh; simp at hh
    | ok q =>
      obtain ⟨ro, lgs2⟩ := q
      rw [hC] at hh
      cases ro with
      | none => simp at hh
      | some o =>
        exact convLoop_blank_no_some hln pre post o lgs2 hC

/-- Witness for C10: a file whose first record is absolute-pixel and whose
second line is empty is left untouched, the loop returning at the empty
line. -/
theorem claim10_witness :
    pyStrip ("") = ("") ∧
    convLoop 200 300 ["" , ("zebra 1 2 3 4")] = .ok (none, [.alreadyNormalized]) ∧
    (∀ (out : List String) (lgs : List LogEvent),
      pascal_to_yolo (some (200, 300)) [("buffalo 10 20 110 220"), "", ("zebra 1 2 3 4")] ≠
        .ok (some out, lgs)) := by
  refine ⟨rfl, ?_, ?_⟩
  · exact (claim10_blank_line 200 300 ("") rfl).1 [("zebra 1 2 3 4")]
  · intro out lgs
    exact (claim10_blank_line 200 300 ("") rfl).2 [("buffalo 10 20 110 220")]
      [("zebra 1 2 3 4")] out lgs

/-- C3 counterexample: convention detection is not file-level.  The file
whose lines are buffalo 10 20 110 220 and zebra 0.1 0.2 0.3 0.4 does not
satisfy the every-record-normalized condition, so the claim requires every
record to be converted and written back; but the code leaves the file
untouched, returning early at the second record. -/
theorem claim3_counterexample :
    specAllRecordsNormalized [("buffalo 10 20 110 220"), ("zebra 0.1 0.2 0.3 0.4")] = false ∧
    pascal_to_yolo (some (200, 300))
      [("buffalo 10 20 110 220"), ("zebra 0.1 0.2 0.3 0.4")] =
      .ok (none, [.alreadyNormalized]) := by
  with_unfolding_all decide

/-- C3 amended: detection is record-level with an early exit.  On any run
that returns normally, the file is left untouched precisely when some
record of the file passes the per-record normalization test (all its value
tokens are numbers in the interval from 0 to 1, vacuously so for a blank
line); only when no record passes it is every record converted and written
back. -/
theorem claim3_amended_record_level (w h : ℕ) (lines : List String)
    (r : Option (List String)) (lgs : List LogEvent)
    (hres : pascal_to_yolo (some (w, h)) lines = .ok (r, lgs)) :
    (r = none ↔ ∃ l ∈ lines, lineNorm l = .ok true) := by
  simp only [pascal_to_yolo] at hres
  cases hC : convLoop w h lines with
  | error e => rw [hC] at hres; simp at hres
  | ok q =>
    obtain ⟨ro, lgs2⟩ := q
    rw [hC] at hres
    cases ro with
    | none =>
      simp only [Except.ok.injEq, Prod.mk.injEq] at hres
      obtain ⟨h1, h2⟩ := hres
      subst h1
      exact convLoop_none_iff hC
    | some o =>
      simp only [Except.ok.injEq, Prod.mk.injEq] at hres
      obtain ⟨h1, h2⟩ := hres
      subst h1
      exact convLoop_none_iff hC

/-- Witness for C3 amended: on the mixed file of the counterexample the run
returns untouched, and accordingly some record passes the per-record
test. -/
theorem claim3_witness :
    pascal_to_yolo (some (200, 300))
      [("buffalo 10 20 110 220"), ("zebra 0.1 0.2 0.3 0.4")] =
      .ok (none, [.alreadyNormalized]) ∧
    ∃ l ∈ [("buffalo 10 20 110 220"), ("zebra 0.1 0.2 0.3 0.4")], lineNorm l = .ok true := by
  have hres : pascal_to_yolo (some (200, 300))
      [("buffalo 10 20 110 220"), ("zebra 0.1 0.2 0.3 0.4")] =
      .ok (none, [.alreadyNormalized]) := by
    with_unfolding_all decide
  exact ⟨hres,
    (claim3_amended_record_level 200 300 _ none [.alreadyNormalized] hres).mp rfl⟩

/-- C4: determinism of the partitioner.  The function re-seeds the random
module with the constant 42 before shuffling, and the sample draw is taken
with the generator state produced by the shuffle, so the selected
train/val/test membership does not depend on the random-module state on
entry: two runs on the same raw corpus listing with the same ratios and
sample cap produce identical membership. -/
theorem claim4_determinism (g1 g2 : RState) (listing : List String) (r1 r2 : ℚ) (cap : ℕ) :
    (train_test_split g1 listing r1 r2 cap).1 = (train_test_split g2 listing r1 r2 cap).1 := rfl

/-- C2: partition structure.  Under nonnegative ratios summing to at most
one and distinct corpus identifiers, the three subsets concatenate exactly
to the sampled identifier list, the train and val sizes are the floors of
sampled times the respective ratio, the three sizes sum to
min(sampleCap, corpusSize), and the three subsets are pairwise disjoint. -/
theorem claim2_split_partition (g0 : RState) (listing : List String) (r1 r2 : ℚ) (cap : ℕ)
    (h1 : 0 ≤ r1) (h2 : 0 ≤ r2) (h3 : r1 + r2 ≤ 1) (hnd : (corpusIds listing).Nodup) :
    ((train_test_split g0 listing r1 r2 cap).1.train ++
      (train_test_split g0 listing r1 r2 cap).1.val ++
      (train_test_split g0 listing r1 r2 cap).1.test = sampledIds listing cap) ∧
    (train_test_split g0 listing r1 r2 cap).1.train.length =
      ⌊((min cap (corpusIds listing).length : ℕ) : ℚ) * r1⌋₊ ∧
    (train_test_split g0 listing r1 r2 cap).1.val.length =
      ⌊((min cap (corpusIds listing).length : ℕ) : ℚ) * r2⌋₊ ∧
    (train_test_split g0 listing r1 r2 cap).1.train.length +
      (train_test_split g0 listing r1 r2 cap).1.val.length +
      (train_test_split g0 listing r1 r2 cap).1.test.length =
      min cap (corpusIds listing).length ∧
    (train_test_split g0 listing r1 r2 cap).1.train.Disjoint
      (train_test_split g0 listing r1 r2 cap).1.val ∧
    (train_test_split g0 listing r1 r2 cap).1.train.Disjoint
      (train_test_split g0 listing r1 r2 cap).1.test ∧
    (train_test_split g0 listing r1 r2 cap).1.val.Disjoint
      (train_test_split g0 listing r1 r2 cap).1.test := by
  rw [train_test_split_fst]
  dsimp only
  set S := sampledIds listing cap with hS
  set n := min cap (corpusIds listing).length with hn
  set t := ⌊(n : ℚ) * r1⌋₊ with ht
  set v := ⌊(n : ℚ) * r2⌋₊ with hv
  have hSlen : S.length = n := sampledIds_length listing cap
  have hSnd : S.Nodup := sampledIds_nodup hnd cap
  have hr1le : r1 ≤ 1 := by linarith
  have htn : t ≤ n := by
    have hmul : (n : ℚ) * r1 ≤ (n : ℚ) := by
      have hn0 : (0 : ℚ) ≤ (n : ℚ) := Nat.cast_nonneg n
      nlinarith [hn0]
    calc t ≤ ⌊(n : ℚ)⌋₊ := Nat.floor_le_floor hmul
    _ = n := Nat.floor_natCast n
  have htvn : t + v ≤ n := by
    have ha : (t : ℚ) ≤ (n : ℚ) * r1 := Nat.floor_le (by positivity)
    have hb : (v : ℚ) ≤ (n : ℚ) * r2 := Nat.floor_le (by positivity)
    have hc : ((t + v : ℕ) : ℚ) ≤ (n : ℚ) := by
      have hn0 : (0 : ℚ) ≤ (n : ℚ) := Nat.cast_nonneg n
      push_cast
      nlinarith [hn0]
    exact_mod_cast hc
  have e1 : (S.drop t).drop v = S.drop (t + v) := List.drop_drop v t S
  have hd1 : (S.take t).Disjoint (S.drop t) := List.disjoint_take_drop hSnd le_rfl
  have hndDrop : (S.drop t).Nodup := List.Nodup.sublist (List.drop_sublist _ _) hSnd
  refine ⟨?_, ?_, ?_, ?_, ?_, ?_, ?_⟩
  · rw [List.append_assoc, ← e1, List.take_append_drop, List.take_append_drop]
  · simp [List.length_take, hSlen, min_eq_left htn]
  · simp only [List.length_take, List.length_drop, hSlen]
    omega
  · simp only [List.length_take, List.length_drop, hSlen]
    omega
  · intro a hta hva
    exact hd1 hta (List.take_subset _ _ hva)
  · exact List.disjoint_take_drop hSnd (Nat.le_add_right t v)
  · rw [← e1]
    exact List.disjoint_take_drop hndDrop le_rfl

/-- Witness for C2: the spec's zebra scenario, ten label plus image pairs
with ratios 0.7 and 0.15 and sample cap 150, giving subset sizes 7, 1
and 2. -/
theorem claim2_witness :
    (0 ≤ (7 / 10 : ℚ)) ∧ (0 ≤ (3 / 20 : ℚ)) ∧ ((7 / 10 : ℚ) + 3 / 20 ≤ 1) ∧
    (corpusIds ["z0.txt", "z0.jpg", "z1.txt", "z1.jpg", "z2.txt", "z2.jpg",
      "z3.txt", "z3.jpg", "z4.txt", "z4.jpg", "z5.txt", "z5.jpg", "z6.txt", "z6.jpg",
      "z7.txt", "z7.jpg", "z8.txt", "z8.jpg", "z9.txt", "z9.jpg"]).Nodup ∧
    ((train_test_split 0 ["z0.txt", "z0.jpg", "z1.txt", "z1.jpg", "z2.txt", "z2.jpg",
      "z3.txt", "z3.jpg", "z4.txt", "z4.jpg", "z5.txt", "z5.jpg", "z6.txt", "z6.jpg",
      "z7.txt", "z7.jpg", "z8.txt", "z8.jpg", "z9.txt", "z9.jpg"]
      (7 / 10) (3 / 20) 150).1.train.Disjoint
      (train_test_split 0 ["z0.txt", "z0.jpg", "z1.txt", "z1.jpg", "z2.txt", "z2.jpg",
      "z3.txt", "z3.jpg", "z4.txt", "z4.jpg", "z5.txt", "z5.jpg", "z6.txt", "z6.jpg",
      "z7.txt", "z7.jpg", "z8.txt", "z8.jpg", "z9.txt", "z9.jpg"]
      (7 / 10) (3 / 20) 150).1.val) ∧
    (train_test_split 0 ["z0.txt", "z0.jpg", "z1.txt", "z1.jpg", "z2.txt", "z2.jpg",
      "z3.txt", "z3.jpg", "z4.txt", "z4.jpg", "z5.txt", "z5.jpg", "z6.txt", "z6.jpg",
      "z7.txt", "z7.jpg", "z8.txt", "z8.jpg", "z9.txt", "z9.jpg"]
      (7 / 10) (3 / 20) 150).1.train.length = 7 ∧
    (train_test_split 0 ["z0.txt", "z0.jpg", "z1.txt", "z1.jpg", "z2.txt", "z2.jpg",
      "z3.txt", "z3.jpg", "z4.txt", "z4.jpg", "z5.txt", "z5.jpg", "z6.txt", "z6.jpg",
      "z7.txt", "z7.jpg", "z8.txt", "z8.jpg", "z9.txt", "z9.jpg"]
      (7 / 10) (3 / 20) 150).1.val.length = 1 ∧
    (train_test_split 0 ["z0.txt", "z0.jpg", "z1.txt", "z1.jpg", "z2.txt", "z2.jpg",
      "z3.txt", "z3.jpg", "z4.txt", "z4.jpg", "z5.txt", "z5.jpg", "z6.txt", "z6.jpg",
      "z7.txt", "z7.jpg", "z8.txt", "z8.jpg", "z9.txt", "z9.jpg"]
      (7 / 10) (3 / 20) 150).1.test.length = 2 := by
  refine ⟨by norm_num, by norm_num, by norm_num, by with_unfolding_all decide, ?_,
    by with_unfolding_all decide, by with_unfolding_all decide, by with_unfolding_all decide⟩
  exact (claim2_split_partition 0 _ (7 / 10) (3 / 20) 150 (by norm_num) (by norm_num)
    (by norm_num) (by with_unfolding_all decide)).2.2.2.2.1

/-- C7 (bug evaluation): a pair whose image has the .jpeg extension is not
resolved and copied like a .jpg pair.  The images filter explicitly admits
.jpeg files, but subset membership strips a fixed four characters from the
filename, so x.jpeg yields the base x. rather than x; the image goes
unresolved, the subset shows one label against zero images, and the whole
subset is aborted with a count-mismatch warning, copying nothing.  The same
pair with a .jpg image is resolved and both files are copied. -/
theorem claim7_jpeg_base_mismatch :
    pyDropLast4 ("x.jpeg") = "x." ∧
    resolvedImages ["x.txt", "x.jpeg"] ["x"] = [] ∧
    images_labels_split (fun _ => false) ["x.txt", "x.jpeg"] ["x"] ("zebra") ("train") =
      ⟨[], [.countMismatch]⟩ ∧
    (images_labels_split (fun _ => false) ["x.txt", "x.jpg"] ["x"] ("zebra") ("train")).copied =
      [(("x.jpg"), imagesDir ("train") ("zebra")), (("x.txt"), labelsDir ("train") ("zebra"))] := by
  with_unfolding_all decide

/-- C8 counterexample: a copy failure does not leave the remaining files of
the subset attempted.  With two resolved image/label pairs and a filesystem
failure on the first image copy alone, the second image is never copied even
though its own copy would succeed: the try/except wraps the whole loop, so
the first failure aborts the rest of the image loop. -/
theorem claim8_counterexample :
    ((fun f => f == "a.jpg") ("b.jpg") = false) ∧
    images_labels_split (fun f => f == "a.jpg") ["a.jpg", "a.txt", "b.jpg", "b.txt"]
      ["a", "b"] ("zebra") ("train") =
      ⟨[(("a.txt"), labelsDir ("train") ("zebra")), (("b.txt"), labelsDir ("train") ("zebra"))],
       [.copyImagesError]⟩ ∧
    (("b.jpg"), imagesDir ("train") ("zebra")) ∉
      (images_labels_split (fun f => f == "a.jpg") ["a.jpg", "a.txt", "b.jpg", "b.txt"]
        ["a", "b"] ("zebra") ("train")).copied := by
  with_unfolding_all decide

/-- C8 amended: copy failures are caught per loop, not per file.  When the
resolved image and label counts agree, the copies performed are exactly the
maximal failure-free prefix of the image list followed by the maximal
failure-free prefix of the label list: a failure aborts the remaining
copies of its own loop, while the other loop still attempts all its files
and other subsets are unaffected. -/
theorem claim8_amended_loop_abort (fails : String → Bool) (raw sub : List String)
    (name mode : String)
    (hc : (resolvedImages raw sub).length = (resolvedLabels raw sub).length) :
    (images_labels_split fails raw sub name mode).copied =
      ((resolvedImages raw sub).takeWhile (fun f => !fails f)).map
        (fun f => (f, imagesDir mode name)) ++
      ((resolvedLabels raw sub).takeWhile (fun f => !fails f)).map
        (fun f => (f, labelsDir mode name)) := by
  unfold images_labels_split
  rw [if_neg (by simp [hc])]
  dsimp only
  rw [copyLoop_fst, copyLoop_fst]

/-- Witness for C8 amended: with the failure on a.jpg, the copied files are
the empty image prefix followed by both labels. -/
theorem claim8_witness :
    (resolvedImages ["a.jpg", "a.txt", "b.jpg", "b.txt"] ["a", "b"]).length =
      (resolvedLabels ["a.jpg", "a.txt", "b.jpg", "b.txt"] ["a", "b"]).length ∧
    (images_labels_split (fun f => f == "a.jpg") ["a.jpg", "a.txt", "b.jpg", "b.txt"]
        ["a", "b"] ("zebra") ("train")).copied =
      ((resolvedImages ["a.jpg", "a.txt", "b.jpg", "b.txt"] ["a", "b"]).takeWhile
        (fun f => !(f == "a.jpg"))).map (fun f => (f, imagesDir ("train") ("zebra"))) ++
      ((resolvedLabels ["a.jpg", "a.txt", "b.jpg", "b.txt"] ["a", "b"]).takeWhile
        (fun f => !(f == "a.jpg"))).map (fun f => (f, labelsDir ("train") ("zebra"))) := by
  refine ⟨by with_unfolding_all decide, ?_⟩
  exact claim8_amended_loop_abort (fun f => f == "a.jpg")
    ["a.jpg", "a.txt", "b.jpg", "b.txt"] ["a", "b"] ("zebra") ("train")
    (by with_unfolding_all decide)

end ASD
